import Mathlib

/-!
Shallow embedding of `src/infrastructure/ai/openai_service.py` (class
`OpenAIService`), the voice/text AI client of the VoiceApp repository.

Modelling conventions:
* A remote API call is a parameter of type `Except String r`: `.error e`
  models the call raising an exception whose `str(e)` is `e`; `.ok`
  carries the parsed response object.  Request construction (base64
  normalisation, prompt assembly) only feeds the remote call, so it is
  subsumed by that parameter except where a claim inspects the request
  (the transcription request language, see `sttRequestLanguage`).
* `jparse : String → Option PyDict` models Python `json.loads` on the
  replies of this service: `none` models `json.JSONDecodeError`, `some`
  a decoded JSON object (the prompts of this module request JSON
  objects, and only object results are consumed by the callers here).
* `now : String` models `datetime.utcnow().isoformat()`.
* Python dictionaries with dynamic keys are association lists
  (`PyDict`); result dictionaries with a fixed key set are Lean
  structures where noted.
* Operations whose Python body catches every exception at the boundary
  (`process_voice_input_for_matching`, `moderate_room_conversation`,
  `extract_topics_and_hashtags`, `health_check`,
  `process_voice_for_hashtags`) are total functions returning a record;
  operations that re-raise (`text_to_speech`, `speech_to_text`) return
  `Except String _`.
-/

namespace VoiceApp

/-- Python values appearing in this module's result dictionaries: `None`,
strings, numbers (the float literals here are only stored, never computed
with, so ℚ represents them exactly), lists and string-keyed dictionaries. -/
inductive PyVal where
  | pynone
  | str (s : String)
  | num (q : ℚ)
  | list (xs : List PyVal)
  | dict (kvs : List (String × PyVal))

/-- A Python dictionary with string keys, as an association list in
insertion order. -/
abbrev PyDict := List (String × PyVal)

/-- Python `d[k] = v`: replace the value of an existing key in place,
else append the new pair (Python dicts keep insertion order). -/
def setKey : PyDict → String → PyVal → PyDict
  | [], k, v => [(k, v)]
  | (k', v') :: rest, k, v =>
    if k' = k then (k, v) :: rest else (k', v') :: setKey rest k v

/-- Python `d.update(upd)`. -/
def dictUpdate (d upd : PyDict) : PyDict :=
  upd.foldl (fun acc p => setKey acc p.1 p.2) d

/-- Key lookup: `none` when the key is absent. -/
def getKey : PyDict → String → Option PyVal
  | [], _ => none
  | (k', v) :: rest, k => if k' = k then some v else getKey rest k

/-- Python `d.get(k, default)`. -/
def pyGet (d : PyDict) (k : String) (default : PyVal) : PyVal :=
  (getKey d k).getD default

/-- Tests whether `pat` begins `cs`. -/
def beginsWith : List Char → List Char → Bool
  | [], _ => true
  | _ :: _, [] => false
  | p :: ps, c :: cs => (p == c) && beginsWith ps cs

/-- Some suffix of `cs` begins with `pat`. -/
def hasSub (pat : List Char) : List Char → Bool
  | [] => pat.isEmpty
  | c :: cs => beginsWith pat (c :: cs) || hasSub pat cs

/-- Python `pat in s`: substring containment. -/
def containsSub (s pat : String) : Bool :=
  hasSub pat.toList s.toList

/-- Python `s.lower()` (ASCII case folding; the keyword tests this file
uses it for only involve ASCII). -/
def pyLower (s : String) : String :=
  String.mk (s.toList.map Char.toLower)

/-- Py_UNICODE_ISSPACE, the character class stripped by Python
`str.strip()` with no arguments. -/
def pyIsSpace (c : Char) : Bool :=
  (9 ≤ c.val && c.val ≤ 13) || (28 ≤ c.val && c.val ≤ 31) || c.val = 32 ||
  c.val = 133 || c.val = 160 || c.val = 5760 ||
  (8192 ≤ c.val && c.val ≤ 8202) || c.val = 8232 || c.val = 8233 ||
  c.val = 8239 || c.val = 8287 || c.val = 12288

/-- Python `not s.strip()`: true iff every character of `s` is whitespace
(in particular for `s = ""`). -/
def stripIsEmpty (s : String) : Bool :=
  s.toList.all pyIsSpace

/-- Python `s[:n]` (slicing counts code points, as `String.toList` does). -/
def pySlice (s : String) (n : Nat) : String :=
  String.mk (s.toList.take n)

/-- The `message.audio` part of a chat-completion message. -/
structure AudioData where
  data : String
  transcript : String

/-- Embeds `response.choices[0].message` of a chat completion: `content` is the
text part (`None` or a string), `audio` the optional audio part. -/
structure ChatMessage where
  content : Option String
  audio : Option AudioData

/-- Python `message.content` as a `PyVal` (`None` or the string). -/
def optStr : Option String → PyVal
  | some s => .str s
  | none => .pynone

/-- Python `message.audio.data if message.audio else None`. -/
def audioDataVal : Option AudioData → PyVal
  | some a => .str a.data
  | none => .pynone

/-- Python `message.audio.transcript if message.audio else None`. -/
def audioTranscriptVal : Option AudioData → PyVal
  | some a => .str a.transcript
  | none => .pynone

/-- Embeds `OpenAIService.process_voice_input_for_matching`, response handling.
The body catches every exception, so the embedding is total: the
`.error` branch is the `except Exception` handler.  Inside the `try`,
`result_data` starts as `{}`, is replaced by the parsed JSON of a truthy
`message.content` (with an inner manual-extraction fallback on
`JSONDecodeError`), and is then updated with the audio response, text
response, audio transcript and timestamp. -/
def process_voice_input_for_matching
    (remote : Except String ChatMessage)
    (jparse : String → Option PyDict) (now : String) : PyDict :=
  match remote with
  | .ok message =>
    let result_data : PyDict :=
      match message.content with
      | some content =>
        if content = "" then []
        else
          match jparse content with
          | some parsed => parsed
          | none =>
            [("understood_text", .str content),
             ("extracted_topics", .list [.str "General topic"]),
             ("generated_hashtags", .list [.str "#general"]),
             ("match_intent", .str "Wants to chat")]
      | none => []
    dictUpdate result_data
      [("audio_response", audioDataVal message.audio),
       ("text_response", optStr message.content),
       ("audio_transcript", audioTranscriptVal message.audio),
       ("processing_time", .str now)]
  | .error e =>
    [("understood_text", .str "Sorry, I didn't understand what you said"),
     ("extracted_topics", .list [.str "General topic"]),
     ("generated_hashtags", .list [.str "#general"]),
     ("match_intent", .str "General chat"),
     ("audio_response", .pynone),
     ("text_response", .str ("Error processing voice input: " ++ e)),
     ("error", .str e)]

/-- Embeds `OpenAIService._extract_suggestions`: pure keyword scan over the
lowercased reply text, appending one tag per matched keyword group. -/
def extract_suggestions (ai_text : String) : List String :=
  let lower := pyLower ai_text
  (if containsSub lower "suggest" then ["💡 AI provided a suggestion"] else []) ++
  (if containsSub lower "topic" then ["🎯 New topic recommendation"] else []) ++
  (if containsSub lower "fact" || containsSub lower "info" then ["🔍 Fact checking"] else [])

/-- Python `room_participants` (a `List[str]` or `None`) as a `PyVal`. -/
def participantsVal : Option (List String) → PyVal
  | some ps => .list (ps.map .str)
  | none => .pynone

/-- Embeds `OpenAIService.moderate_room_conversation`, response handling.  The
context/message assembly only feeds the remote call; the suggestion scan
runs on `message.content or ""`.  The `.error` branch is the
`except Exception` handler, which returns a minimal record. -/
def moderate_room_conversation
    (remote : Except String ChatMessage)
    (room_participants : Option (List String))
    (moderation_mode : String) (now : String) : PyDict :=
  match remote with
  | .ok message =>
    [("ai_response", .dict
       [("text", optStr message.content),
        ("audio", audioDataVal message.audio),
        ("audio_transcript", audioTranscriptVal message.audio)]),
     ("moderation_type", .str moderation_mode),
     ("suggestions", .list ((extract_suggestions (message.content.getD "")).map .str)),
     ("timestamp", .str now),
     ("participants", participantsVal room_participants)]
  | .error e =>
    [("ai_response", .dict
       [("text", .str ("AI host encountered an issue: " ++ e)),
        ("audio", .pynone)]),
     ("error", .str e)]

/-- Embeds `OpenAIService.health_check`: `remote` is the outcome of the
`client.audio.speech.create` probe (its response value is unused). -/
def health_check (remote : Except String Unit) (now : String) : PyDict :=
  match remote with
  | .ok _ =>
    [("status", .str "healthy"),
     ("service", .str "openai_tts"),
     ("model", .str "tts-1"),
     ("timestamp", .str now)]
  | .error e =>
    [("status", .str "unhealthy"),
     ("service", .str "openai_gpt4o_audio"),
     ("error", .str e),
     ("timestamp", .str now)]

/-- The speech-synthesis response: `response.content` is the raw audio
bytes. -/
structure SpeechResponse where
  content : List Nat

/-- Embeds `OpenAIService.text_to_speech`: returns `response.content`; the
handler is `except: ... raise`, re-raising the same exception. -/
def text_to_speech (remote : Except String SpeechResponse) :
    Except String (List Nat) :=
  match remote with
  | .ok response => .ok response.content
  | .error e => .error e

/-- One element of `response.words` of a verbose transcription. -/
structure WordSpan where
  word : String
  start : ℚ
  stop : ℚ

/-- The transcription response (`verbose_json`): `text` is always
present; `language`, `duration` and `words` are optional attributes
read with `getattr`/`hasattr`. -/
structure TranscribeResponse where
  text : String
  language : Option String
  duration : Option ℚ
  words : Option (List WordSpan)

/-- The characters before the first dash. -/
def beforeDash : List Char → List Char
  | [] => []
  | c :: cs => if c = '-' then [] else c :: beforeDash cs

/-- Python `language.split('-')[0]`: everything before the first dash,
or the whole string when no dash occurs. -/
def primarySubtag (language : String) : String :=
  String.mk (beforeDash language.toList)

/-- The `language` parameter of the transcription request:
`language.split('-')[0] if language else None`. -/
def sttRequestLanguage (language : String) : Option String :=
  if language = "" then none else some (primarySubtag language)

/-- One `{"word": ..., "start": ..., "end": ...}` record. -/
def wordVal (w : WordSpan) : PyVal :=
  .dict [("word", .str w.word), ("start", .num w.start), ("end", .num w.stop)]

/-- The `words` list of the result: present-and-nonempty `response.words`
is mapped to span records, otherwise the list stays `[]` (mapping an
empty list also yields `[]`, so the truthiness test folds away). -/
def sttWords (response : TranscribeResponse) : List PyVal :=
  match response.words with
  | some ws => ws.map wordVal
  | none => []

/-- The result dictionary of `speech_to_text` has a fixed key set
(`text`, `language`, `duration`, `confidence`, `words`), so it is a
structure. -/
structure SttResult where
  text : String
  language : String
  duration : ℚ
  confidence : ℚ
  words : List PyVal

/-- The success branch of `speech_to_text`: `language` defaults to the
original (un-truncated) request language when the response omits a
detected language, `duration` defaults to `0.0`, and `confidence` is the
fixed constant `0.95` (the service reports none). -/
def sttSuccess (language : String) (response : TranscribeResponse) : SttResult :=
  { text := response.text
    language := response.language.getD language
    duration := response.duration.getD 0
    confidence := 0.95
    words := sttWords response }

/-- Embeds `OpenAIService.speech_to_text`: the handler is
`raise Exception(f"STT processing failed: {str(e)}")`, wrapping the
failure with context and re-raising. -/
def speech_to_text (language : String)
    (remote : Except String TranscribeResponse) : Except String SttResult :=
  match remote with
  | .ok response => .ok (sttSuccess language response)
  | .error e => .error ("STT processing failed: " ++ e)

/-- The request-level-failure fallback of `extract_topics_and_hashtags`
(the `except Exception` handler). -/
def topicErrorFallback (e : String) : PyDict :=
  [("main_topics", .list [.str "general"]),
   ("hashtags", .list [.str "#general", .str "#chat"]),
   ("category", .str "other"),
   ("sentiment", .str "neutral"),
   ("conversation_style", .str "casual"),
   ("confidence", .num 0.1),
   ("summary", .str "Could not analyze topics"),
   ("error", .str e)]

/-- The parse-failure fallback of `extract_topics_and_hashtags` (the
inner `except json.JSONDecodeError` handler), preserving the raw reply. -/
def topicParseFallback (content : String) : PyDict :=
  [("main_topics", .list [.str "general", .str "conversation"]),
   ("hashtags", .list [.str "#chat", .str "#social", .str "#conversation"]),
   ("category", .str "other"),
   ("sentiment", .str "neutral"),
   ("conversation_style", .str "casual"),
   ("confidence", .num 0.5),
   ("summary", .str "General conversation topic"),
   ("raw_response", .str content)]

/-- Embeds `OpenAIService.extract_topics_and_hashtags`, response handling.  A
`None` content makes `json.loads(None)` raise `TypeError`, which the
inner handler (catching only `JSONDecodeError`) does not intercept, so
the outer handler returns the request-level fallback with that message. -/
def extract_topics_and_hashtags
    (remote : Except String ChatMessage)
    (jparse : String → Option PyDict) : PyDict :=
  match remote with
  | .error e => topicErrorFallback e
  | .ok message =>
    match message.content with
    | none =>
      topicErrorFallback "the JSON object must be str, bytes or bytearray, not NoneType"
    | some content =>
      match jparse content with
      | some result => result
      | none => topicParseFallback content

/-- Embeds `OpenAIService.process_voice_for_hashtags`: the composite pipeline.
`stt` and `topicRemote` are the remote outcomes of the two stages; the
outer `except Exception` handler catches exactly the failure
`speech_to_text` re-raises (`extract_topics_and_hashtags` is total). -/
def process_voice_for_hashtags
    (language : String)
    (stt : Except String TranscribeResponse)
    (topicRemote : Except String ChatMessage)
    (jparse : String → Option PyDict) : PyDict :=
  match speech_to_text language stt with
  | .error e =>
    [("transcription", .str ""),
     ("main_topics", .list []),
     ("hashtags", .list []),
     ("error", .str e)]
  | .ok stt_result =>
    let transcription := stt_result.text
    if stripIsEmpty transcription then
      [("transcription", .str ""),
       ("main_topics", .list []),
       ("hashtags", .list []),
       ("error", .str "No speech detected in audio")]
    else
      let topic_result := extract_topics_and_hashtags topicRemote jparse
      [("transcription", .str transcription),
       ("language", .str stt_result.language),
       ("duration", .num stt_result.duration),
       ("confidence", .num stt_result.confidence),
       ("main_topics", pyGet topic_result "main_topics" (.list [])),
       ("hashtags", pyGet topic_result "hashtags" (.list [])),
       ("category", pyGet topic_result "category" (.str "other")),
       ("sentiment", pyGet topic_result "sentiment" (.str "neutral")),
       ("conversation_style", pyGet topic_result "conversation_style" (.str "casual")),
       ("summary", pyGet topic_result "summary" (.str (pySlice transcription 100)))]

/-! ## Association-list lemmas -/

theorem getKey_setKey_self (d : PyDict) (k : String) (v : PyVal) :
    getKey (setKey d k v) k = some v := by
  induction d with
  | nil => simp [setKey, getKey]
  | cons p rest ih =>
    obtain ⟨k', v'⟩ := p
    by_cases h : k' = k
    · simp [setKey, h, getKey]
    · simp [setKey, h, getKey, ih]

theorem getKey_setKey_ne (d : PyDict) (k' k : String) (v : PyVal)
    (h : k' ≠ k) : getKey (setKey d k' v) k = getKey d k := by
  induction d with
  | nil => simp [setKey, getKey, h]
  | cons p rest ih =>
    obtain ⟨k'', v''⟩ := p
    by_cases h2 : k'' = k'
    · subst h2
      simp [setKey, getKey, h]
    · simp only [setKey, if_neg h2]
      by_cases h3 : k'' = k
      · simp [getKey, h3]
      · simp [getKey, h3, ih]

/-! ## Claims -/

/-- C1 counterexample: on a successful remote call whose message carries
no text content, `process_voice_input_for_matching` returns a record
that lacks the declared `understood_text` field (and the other three
JSON-derived fields), so it is not true that every input yields a record
with every field of the declared shape. -/
theorem C1_counterexample :
    getKey (process_voice_input_for_matching
        (.ok ⟨none, none⟩) (fun _ => none) "2026-10-12T00:00:00")
      "understood_text" = none := rfl

/-- C1 (amended): each of the four self-suppressing operations is a total
function into a result record (it never raises), and on inputs where the
remote call raises, `process_voice_input_for_matching`,
`extract_topics_and_hashtags` and `health_check` return records
containing every field of their failure shape populated with
placeholders plus an error field carrying the failure description, while
`moderate_room_conversation` returns a minimal record containing an
`ai_response` (text and audio) and an error field.  On success paths the
record may be only partially populated. -/
theorem C1_theorem (e now moderation_mode : String)
    (room_participants : Option (List String))
    (jparse : String → Option PyDict) :
    (let r := process_voice_input_for_matching (.error e) jparse now
     (["understood_text", "extracted_topics", "generated_hashtags", "match_intent",
       "audio_response", "text_response", "error"].all
        (fun k => (getKey r k).isSome)) = true ∧
     getKey r "extracted_topics" = some (.list [.str "General topic"]) ∧
     getKey r "generated_hashtags" = some (.list [.str "#general"]) ∧
     getKey r "error" = some (.str e)) ∧
    (let r := extract_topics_and_hashtags (.error e) jparse
     (["main_topics", "hashtags", "category", "sentiment", "conversation_style",
       "confidence", "summary", "error"].all
        (fun k => (getKey r k).isSome)) = true ∧
     getKey r "error" = some (.str e)) ∧
    (let r := health_check (.error e) now
     getKey r "status" = some (.str "unhealthy") ∧
     getKey r "error" = some (.str e) ∧
     getKey r "timestamp" = some (.str now)) ∧
    (let r := moderate_room_conversation (.error e) room_participants moderation_mode now
     getKey r "ai_response" = some (.dict
        [("text", .str ("AI host encountered an issue: " ++ e)),
         ("audio", .pynone)]) ∧
     getKey r "error" = some (.str e)) :=
  ⟨⟨rfl, rfl, rfl, rfl⟩, ⟨rfl, rfl⟩, ⟨rfl, rfl, rfl⟩, ⟨rfl, rfl⟩⟩

/-- C2 counterexample: when the transcription succeeds with "hello" and
the topic-extraction stage surfaces a request-level error, the result of
`process_voice_for_hashtags` keeps the real transcription, carries the
fallback (non-empty) topics and hashtags, and has no error field at all
— not the empty-transcription/error shape the claim requires. -/
theorem C2_counterexample :
    (let r := process_voice_for_hashtags "en-US"
        (.ok ⟨"hello", none, none, none⟩) (.error "boom") (fun _ => none)
     getKey r "transcription" = some (.str "hello") ∧
     getKey r "main_topics" = some (.list [.str "general"]) ∧
     getKey r "hashtags" = some (.list [.str "#general", .str "#chat"]) ∧
     getKey r "error" = none) :=
  ⟨rfl, rfl, rfl, rfl⟩

/-- C2 (amended): when the speech-to-text stage raises,
`process_voice_for_hashtags` catches the failure and returns a record
with empty transcription, empty `main_topics`, empty `hashtags` and an
error field; but when the topic-extraction stage surfaces a
request-level error (it never raises), its fallback topics and hashtags
are merged with the real transcription and no error field is returned. -/
theorem C2_theorem (language e₁ e₂ : String) (r : TranscribeResponse)
    (jparse : String → Option PyDict) (topicRemote : Except String ChatMessage) :
    process_voice_for_hashtags language (.error e₁) topicRemote jparse =
      [("transcription", .str ""),
       ("main_topics", .list []),
       ("hashtags", .list []),
       ("error", .str ("STT processing failed: " ++ e₁))] ∧
    (stripIsEmpty r.text = false →
      getKey (process_voice_for_hashtags language (.ok r) (.error e₂) jparse)
          "transcription" = some (.str r.text) ∧
      getKey (process_voice_for_hashtags language (.ok r) (.error e₂) jparse)
          "main_topics" = some (.list [.str "general"]) ∧
      getKey (process_voice_for_hashtags language (.ok r) (.error e₂) jparse)
          "hashtags" = some (.list [.str "#general", .str "#chat"]) ∧
      getKey (process_voice_for_hashtags language (.ok r) (.error e₂) jparse)
          "error" = none) := by
  refine ⟨rfl, fun h => ?_⟩
  have hred : process_voice_for_hashtags language (.ok r) (.error e₂) jparse =
      [("transcription", .str r.text),
       ("language", .str (r.language.getD language)),
       ("duration", .num (r.duration.getD 0)),
       ("confidence", .num 0.95),
       ("main_topics", pyGet (topicErrorFallback e₂) "main_topics" (.list [])),
       ("hashtags", pyGet (topicErrorFallback e₂) "hashtags" (.list [])),
       ("category", pyGet (topicErrorFallback e₂) "category" (.str "other")),
       ("sentiment", pyGet (topicErrorFallback e₂) "sentiment" (.str "neutral")),
       ("conversation_style", pyGet (topicErrorFallback e₂) "conversation_style" (.str "casual")),
       ("summary", pyGet (topicErrorFallback e₂) "summary" (.str (pySlice r.text 100)))] := by
    simp only [process_voice_for_hashtags, speech_to_text, sttSuccess,
      extract_topics_and_hashtags, h, Bool.false_eq_true, if_false]
  rw [hred]
  exact ⟨rfl, rfl, rfl, rfl⟩

/-- C2 witness: the amended theorem at a concrete failing transcription
and a concrete failing topic stage. -/
theorem C2_witness :
    process_voice_for_hashtags "en" (.error "net down") (.ok ⟨none, none⟩) (fun _ => none) =
      [("transcription", .str ""),
       ("main_topics", .list []),
       ("hashtags", .list []),
       ("error", .str "STT processing failed: net down")] ∧
    getKey (process_voice_for_hashtags "en"
        (.ok ⟨"hello", none, none, none⟩) (.error "boom") (fun _ => none)) "error" = none :=
  by
  have h := C2_theorem "en" "net down" "boom" ⟨"hello", none, none, none⟩
    (fun _ => none) (.ok ⟨none, none⟩)
  exact ⟨h.1, (h.2 (by decide)).2.2.2⟩

/-- C3: on a successful remote call whose text content is absent or
empty, the returned record consists of exactly the four
response-metadata fields — `audio_response`, `text_response`,
`audio_transcript`, `processing_time` — and carries none of
`understood_text`, `extracted_topics`, `generated_hashtags` or
`match_intent`: the success path performs no placeholder substitution. -/
theorem C3_theorem (audio : Option AudioData) (c : Option String)
    (jparse : String → Option PyDict) (now : String)
    (h : c = none ∨ c = some "") :
    process_voice_input_for_matching (.ok ⟨c, audio⟩) jparse now =
      [("audio_response", audioDataVal audio),
       ("text_response", optStr c),
       ("audio_transcript", audioTranscriptVal audio),
       ("processing_time", .str now)] ∧
    getKey (process_voice_input_for_matching (.ok ⟨c, audio⟩) jparse now)
        "understood_text" = none ∧
    getKey (process_voice_input_for_matching (.ok ⟨c, audio⟩) jparse now)
        "extracted_topics" = none ∧
    getKey (process_voice_input_for_matching (.ok ⟨c, audio⟩) jparse now)
        "generated_hashtags" = none ∧
    getKey (process_voice_input_for_matching (.ok ⟨c, audio⟩) jparse now)
        "match_intent" = none := by
  rcases h with h | h <;> subst h <;> exact ⟨rfl, rfl, rfl, rfl, rfl⟩

/-- C3 witness: the theorem at a concrete reply with audio but no text. -/
theorem C3_witness :
    process_voice_input_for_matching
        (.ok ⟨none, some ⟨"QUJD", "hi there"⟩⟩) (fun _ => none) "2026-10-12T01:00:00" =
      [("audio_response", .str "QUJD"),
       ("text_response", .pynone),
       ("audio_transcript", .str "hi there"),
       ("processing_time", .str "2026-10-12T01:00:00")] ∧
    getKey (process_voice_input_for_matching
        (.ok ⟨none, some ⟨"QUJD", "hi there"⟩⟩) (fun _ => none) "2026-10-12T01:00:00")
        "understood_text" = none ∧
    getKey (process_voice_input_for_matching
        (.ok ⟨none, some ⟨"QUJD", "hi there"⟩⟩) (fun _ => none) "2026-10-12T01:00:00")
        "extracted_topics" = none ∧
    getKey (process_voice_input_for_matching
        (.ok ⟨none, some ⟨"QUJD", "hi there"⟩⟩) (fun _ => none) "2026-10-12T01:00:00")
        "generated_hashtags" = none ∧
    getKey (process_voice_input_for_matching
        (.ok ⟨none, some ⟨"QUJD", "hi there"⟩⟩) (fun _ => none) "2026-10-12T01:00:00")
        "match_intent" = none :=
  C3_theorem (some ⟨"QUJD", "hi there"⟩) none (fun _ => none)
    "2026-10-12T01:00:00" (Or.inl rfl)

/-- C4: when the transcription text is empty or all-whitespace,
`process_voice_for_hashtags` returns the fixed no-speech record; the
result is a constant over every topic-stage outcome `topicRemote` and
every parse oracle `jparse`, so the topic-extraction stage is never
consulted. -/
theorem C4_theorem (language : String) (response : TranscribeResponse)
    (topicRemote : Except String ChatMessage) (jparse : String → Option PyDict)
    (h : stripIsEmpty response.text = true) :
    process_voice_for_hashtags language (.ok response) topicRemote jparse =
      [("transcription", .str ""),
       ("main_topics", .list []),
       ("hashtags", .list []),
       ("error", .str "No speech detected in audio")] := by
  simp only [process_voice_for_hashtags, speech_to_text, sttSuccess, h, if_true]

/-- C4 witness: the theorem at a concrete all-whitespace transcription. -/
theorem C4_witness :
    process_voice_for_hashtags "en-US" (.ok ⟨" \t ", none, none, none⟩)
        (.error "unused") (fun _ => none) =
      [("transcription", .str ""),
       ("main_topics", .list []),
       ("hashtags", .list []),
       ("error", .str "No speech detected in audio")] :=
  C4_theorem "en-US" ⟨" \t ", none, none, none⟩ (.error "unused") (fun _ => none) (by decide)

/-- C5: a successful reply whose text fails to parse as JSON produces
the parse-failure fallback (topics ["general", "conversation"], category
"other", sentiment "neutral", the raw reply preserved under
`raw_response`, confidence 0.5, no error field), distinct from the
request-level-failure fallback, which carries the strictly lower
confidence 0.1 and an error field. -/
theorem C5_theorem (content e : String) (audio : Option AudioData)
    (jparse : String → Option PyDict)
    (h : jparse content = none) :
    extract_topics_and_hashtags (.ok ⟨some content, audio⟩) jparse =
        topicParseFallback content ∧
    getKey (topicParseFallback content) "main_topics" =
        some (.list [.str "general", .str "conversation"]) ∧
    getKey (topicParseFallback content) "category" = some (.str "other") ∧
    getKey (topicParseFallback content) "sentiment" = some (.str "neutral") ∧
    getKey (topicParseFallback content) "raw_response" = some (.str content) ∧
    getKey (topicParseFallback content) "confidence" = some (.num 0.5) ∧
    getKey (topicParseFallback content) "error" = none ∧
    extract_topics_and_hashtags (.error e) jparse = topicErrorFallback e ∧
    getKey (topicErrorFallback e) "confidence" = some (.num 0.1) ∧
    getKey (topicErrorFallback e) "error" = some (.str e) ∧
    (0.1 : ℚ) < 0.5 := by
  refine ⟨?_, rfl, rfl, rfl, rfl, rfl, rfl, rfl, rfl, rfl, by norm_num⟩
  simp only [extract_topics_and_hashtags, h]

/-- C5 witness: the theorem at a concrete unparseable reply. -/
theorem C5_witness :
    extract_topics_and_hashtags (.ok ⟨some "not json at all", none⟩) (fun _ => none) =
        topicParseFallback "not json at all" ∧
    getKey (topicParseFallback "not json at all") "raw_response" =
        some (.str "not json at all") :=
  by
  have h := C5_theorem "not json at all" "e" none (fun _ => none) rfl
  exact ⟨h.1, h.2.2.2.2.1⟩

/-- C7: for a non-empty language tag, the transcription request's
language parameter is the primary subtag ("en-US" becomes "en", "fr"
stays "fr"); and when the response omits a detected language, the
`language` field of the returned record is the original, un-truncated
tag. -/
theorem C7_theorem (language : String) (response : TranscribeResponse)
    (h : language ≠ "") (hl : response.language = none) :
    sttRequestLanguage language = some (primarySubtag language) ∧
    primarySubtag "en-US" = "en" ∧
    primarySubtag "fr" = "fr" ∧
    (∀ s, speech_to_text language (.ok response) = .ok s → s.language = language) := by
  refine ⟨by simp [sttRequestLanguage, h], rfl, rfl, fun s hs => ?_⟩
  have hs' : Except.ok (ε := String) (sttSuccess language response) = .ok s := hs
  injection hs' with h2
  rw [← h2]
  simp [sttSuccess, hl]

/-- C7 witness: the theorem at the language tag "en-US" and a response
with no detected-language field. -/
theorem C7_witness :
    sttRequestLanguage "en-US" = some "en" ∧
    (∀ s, speech_to_text "en-US" (.ok ⟨"hi", none, none, none⟩) = .ok s →
      s.language = "en-US") := by
  have h := C7_theorem "en-US" ⟨"hi", none, none, none⟩ (by decide) rfl
  exact ⟨h.1.trans (congrArg Option.some h.2.1), h.2.2.2⟩

/-- C10: on a successful reply whose text content is well-formed JSON
(the parse yields an object) and which carries an audio payload, the
`audio_response` field of the record returned by
`process_voice_input_for_matching` is exactly that payload, unchanged. -/
theorem C10_theorem (content now : String) (kvs : PyDict) (a : AudioData)
    (jparse : String → Option PyDict)
    (hc : content ≠ "") (h : jparse content = some kvs) :
    getKey (process_voice_input_for_matching (.ok ⟨some content, some a⟩) jparse now)
      "audio_response" = some (.str a.data) := by
  have hred : process_voice_input_for_matching (.ok ⟨some content, some a⟩) jparse now
      = dictUpdate kvs
        [("audio_response", .str a.data),
         ("text_response", .str content),
         ("audio_transcript", .str a.transcript),
         ("processing_time", .str now)] := by
    simp only [process_voice_input_for_matching, audioDataVal, optStr,
      audioTranscriptVal, h, hc, if_false]
  rw [hred]
  show getKey (setKey (setKey (setKey (setKey kvs "audio_response" (.str a.data))
      "text_response" (.str content)) "audio_transcript" (.str a.transcript))
      "processing_time" (.str now)) "audio_response" = some (.str a.data)
  rw [getKey_setKey_ne _ _ _ _ (by decide), getKey_setKey_ne _ _ _ _ (by decide),
    getKey_setKey_ne _ _ _ _ (by decide), getKey_setKey_self]

/-- C10 witness: the theorem at a concrete parsed reply and audio
payload. -/
theorem C10_witness :
    getKey (process_voice_input_for_matching
        (.ok ⟨some "ok", some ⟨"AUDIOPAYLOAD", "tr"⟩⟩)
        (fun _ => some [("understood_text", .str "hi")]) "t")
      "audio_response" = some (.str "AUDIOPAYLOAD") :=
  C10_theorem "ok" "t" [("understood_text", .str "hi")] ⟨"AUDIOPAYLOAD", "tr"⟩
    (fun _ => some [("understood_text", .str "hi")]) (by decide) rfl

/-- C6: `text_to_speech` re-raises the remote failure unchanged and
`speech_to_text` re-raises it wrapped with added context (a strictly
longer message, so the wrapped failure always differs from the bare
one). -/
theorem C6_theorem (language e : String) :
    text_to_speech (.error e) = .error e ∧
    speech_to_text language (.error e) = .error ("STT processing failed: " ++ e) ∧
    "STT processing failed: " ++ e ≠ e := by
  refine ⟨rfl, rfl, fun hc => ?_⟩
  have h2 := congrArg String.length hc
  rw [String.length_append] at h2
  have h3 : ("STT processing failed: ").length = 23 := rfl
  rw [h3] at h2
  omega

/-- C8: `_extract_suggestions` is a pure function of its text argument
doing case-insensitive substring tests: "I suggest a new topic" yields
both the suggestion tag and the topic tag, "hello" yields nothing, and
an upper-case keyword still matches. -/
theorem C8_theorem :
    extract_suggestions "I suggest a new topic" =
      ["💡 AI provided a suggestion", "🎯 New topic recommendation"] ∧
    extract_suggestions "hello" = [] ∧
    extract_suggestions "NEW TOPIC" = ["🎯 New topic recommendation"] :=
  ⟨rfl, rfl, rfl⟩

/-- C9 counterexample: the probe can fail with an exception whose string
description is empty (Python `str(Exception())` is `""`); `health_check`
then returns status "unhealthy" but an empty error string, refuting the
claim that the error string is always non-empty on failure. -/
theorem C9_counterexample :
    getKey (health_check (.error "") "2026-10-12T00:00:00") "status"
        = some (.str "unhealthy") ∧
    getKey (health_check (.error "") "2026-10-12T00:00:00") "error"
        = some (.str "") :=
  ⟨rfl, rfl⟩

/-- C9 (amended): `health_check` never raises (it is total); on probe
success it reports status "healthy"; on probe failure it reports status
"unhealthy" with an error field equal to the failure's string
description — hence non-empty whenever that description is — and a
timestamp. -/
theorem C9_theorem (e now : String) :
    getKey (health_check (.ok ()) now) "status" = some (.str "healthy") ∧
    getKey (health_check (.ok ()) now) "error" = none ∧
    getKey (health_check (.error e) now) "status" = some (.str "unhealthy") ∧
    getKey (health_check (.error e) now) "error" = some (.str e) ∧
    getKey (health_check (.error e) now) "timestamp" = some (.str now) ∧
    (e ≠ "" → getKey (health_check (.error e) now) "error" ≠ some (.str "")) := by
  refine ⟨rfl, rfl, rfl, rfl, rfl, fun hne hc => hne ?_⟩
  have h2 : some (PyVal.str e) = some (PyVal.str "") := hc
  injection h2 with h3
  injection h3

/-- C9 witness: the amended theorem applied at a concrete failing probe. -/
theorem C9_witness :
    getKey (health_check (.error "boom") "t") "status" = some (.str "unhealthy") ∧
    getKey (health_check (.error "boom") "t") "error" ≠ some (.str "") :=
  by
  have h := C9_theorem "boom" "t"
  exact ⟨h.2.2.1, h.2.2.2.2.2 (by decide)⟩

end VoiceApp
